import Mathlib

/-!
Verification of RestoreWindowPosition against its specification.

This file gives a shallow embedding of the core logic of
`restore_window_position.py` (the current version of the program; `main.py`
is an earlier variant) and proves or refutes the specified properties.

External OS services (pywin32 window enumeration, geometry queries, system
metrics) are modelled as explicit inputs: the set of live windows is a list
of top-level windows with their descendant windows, a per-tick record carries
the results the OS calls would return on that tick, and a call that can raise
is given an `Except`/`Option` result type.  Machine integers are `Int`
(window coordinates are signed and small; no overflow is reachable), and the
float tunables of the DEFAULT section are modelled as exact rationals.
-/

/-- A window rectangle, grouping the four coordinates that the source keeps
in the keys `PosX0`, `PosY0`, `PosX1`, `PosY1` (left, top, right, bottom). -/
structure Rect where
  x0 : Int
  y0 : Int
  x1 : Int
  y1 : Int
deriving DecidableEq, Repr

/-- The virtual-screen metrics returned by the four `GetSystemMetrics`
calls in `is_position_valid` (`SM_XVIRTUALSCREEN`, `SM_YVIRTUALSCREEN`,
`SM_CXVIRTUALSCREEN`, `SM_CYVIRTUALSCREEN`). -/
structure VScreen where
  left : Int
  top : Int
  width : Int
  height : Int
deriving DecidableEq, Repr

/-- Python's `str.lower()` (character-wise lower-casing; the titles and
option names involved are compared after this fold). -/
def py_lower (s : String) : String := String.mk (s.data.map Char.toLower)

/-- Embedding of `is_position_valid(x0, y0, x1, y1)`
(restore_window_position.py:219-228).  The metrics are queried fresh on
every call, so they are an explicit argument here. -/
def is_position_valid (vs : VScreen) (x0 y0 x1 y1 : Int) : Bool :=
  let x0_min := vs.left
  let y0_min := vs.top
  let x1_max := vs.left + vs.width
  let y1_max := vs.top + vs.height
  (x0 ≥ x0_min) && (y0 ≥ y0_min) && (x1 ≤ x1_max) && (y1 ≤ y1_max)

/-- Embedding of the nested `compare_window_title` of `get_window_by_name`
(restore_window_position.py:46-51).  `re_match` stands for the external
`re.match` anchored-at-start regex test; it is a parameter because regex
semantics are outside the embedded core. -/
def compare_window_title (re_match : String → String → Bool)
    (is_name_regex lowercase_only : Bool)
    (target_wname current_wname : String) : Bool :=
  let target := if lowercase_only then py_lower target_wname else target_wname
  let current := if lowercase_only then py_lower current_wname else current_wname
  (is_name_regex && re_match target current) || (target == current)

/-- A descendant window as seen by `EnumChildWindows`: its handle and the
result of `GetWindowText` on it (`Except.error` models the call raising). -/
structure ChildWin where
  hwnd : Nat
  text : Except Unit String

/-- A top-level window as seen by `EnumWindows`: its handle, the result of
`GetWindowText` on it, and its descendant windows in enumeration order. -/
structure TopWin where
  hwnd : Nat
  text : Except Unit String
  children : List ChildWin

/-- Embedding of `enum_child_windows_callback` driven by `EnumChildWindows`
(restore_window_position.py:53-60, called at 71-78), with `DEBUG_MODE =
False`.  A match sets `found_window_hwnd` and raises `StopEnumerateWindows`
(result `some hwnd`); a `GetWindowText` failure propagates out of the
callback, halting `EnumChildWindows`, and is swallowed by the
`except Exception: pass` around the call, so the rest of this subtree is
skipped and no match is produced (result `none`). -/
def enum_child_windows (cmp : String → Bool) : List ChildWin → Option Nat
  | [] => none
  | c :: rest =>
    match c.text with
    | .error _ => none
    | .ok child_wname =>
      if child_wname != "" && cmp child_wname then some c.hwnd
      else enum_child_windows cmp rest

/-- Embedding of `enum_windows_callback` driven by `EnumWindows`
(restore_window_position.py:62-90), with `DEBUG_MODE = False`.  A top-level
match raises `StopEnumerateWindows` before any child search, so the matching
handle is returned at once.  A non-match (or empty title) searches the
window's descendants when `is_child_window` is set.  A `GetWindowText`
failure on a top-level window halts `EnumWindows`; the outer
`except Exception` swallows it, and the function returns the current
`found_window_hwnd`, which is still `0` because every earlier match would
have returned already. -/
def enum_windows (cmp : String → Bool) (is_child_window : Bool) :
    List TopWin → Nat
  | [] => 0
  | w :: rest =>
    match w.text with
    | .error _ => 0
    | .ok window_name =>
      if window_name != "" && cmp window_name then w.hwnd
      else if is_child_window then
        match enum_child_windows cmp w.children with
        | some h => h
        | none => enum_windows cmp is_child_window rest
      else enum_windows cmp is_child_window rest

/-- Embedding of `get_window_by_name(target_name, is_name_regex,
lowercase_only, is_child_window)` (restore_window_position.py:41-90) over a
given list of live top-level windows.  Returns `0` (falsy handle, the
absence marker) when nothing matched. -/
def get_window_by_name (re_match : String → String → Bool)
    (target_name : String)
    (is_name_regex lowercase_only is_child_window : Bool)
    (windows : List TopWin) : Nat :=
  enum_windows
    (fun wname =>
      compare_window_title re_match is_name_regex lowercase_only
        target_name wname)
    is_child_window windows

/-- The double-quote character (Python literal `'"'`). -/
def dquoteChar : Char := Char.ofNat 34

/-- The single-quote character (Python literal `"'"`). -/
def squoteChar : Char := Char.ofNat 39

/-- Embedding of the nested `has_quotes` of `read_ini_parser`
(restore_window_position.py:105-106).  Python's `string and (...)` makes an
empty string falsy, hence the non-emptiness conjunct; `string[0]` and
`string[-1]` on a non-empty string are its first and last characters. -/
def has_quotes (s : String) : Bool :=
  s != "" &&
    ((s.front == dquoteChar && s.back == dquoteChar) ||
     (s.front == squoteChar && s.back == squoteChar))

/-- Embedding of the nested `remove_quotes` of `read_ini_parser`
(restore_window_position.py:108-112; the copy in main.py:76-80 is
identical).  `string[1:]` and `string[:-1]` never raise, but the second
line's subscript `string[-1]` raises `IndexError` when the string has
become empty; that raise is modelled as `none`. -/
def remove_quotes (s : String) : Option String :=
  if has_quotes s then
    let s1 := if s.front == dquoteChar || s.front == squoteChar then s.drop 1 else s
    if s1 == "" then none
    else some (if s1.back == dquoteChar || s1.back == squoteChar then s1.dropRight 1 else s1)
  else some s

/-- A raw INI section: the option/value pairs as authored.  `configparser`
lowercases option names (its default `optionxform`), so lookup compares
names case-insensitively. -/
def section_get (sec : List (String × String)) (key : String) : Option String :=
  (sec.find? (fun kv => py_lower kv.1 == py_lower key)).map (fun kv => kv.2)

/-- `configparser`'s `BOOLEAN_STATES` conversion: `"1"/"yes"/"true"/"on"`
(case-insensitive) parse to `True`, `"0"/"no"/"false"/"off"` to `False`,
anything else raises `ValueError` (modelled as `none`). -/
def convert_to_boolean (v : String) : Option Bool :=
  let lv := py_lower v
  if lv == "1" || lv == "yes" || lv == "true" || lv == "on" then some true
  else if lv == "0" || lv == "no" || lv == "false" || lv == "off" then some false
  else none

/-- `parser.getboolean(section, key, fallback=...)`: the fallback is used
when the option is absent; a present but unparseable value raises. -/
def cfg_getboolean (sec : List (String × String)) (key : String)
    (fallback : Bool) : Option Bool :=
  match section_get sec key with
  | none => some fallback
  | some v => convert_to_boolean v

/-- `parser.getint(section, key, fallback=...)`: the fallback is used when
the option is absent; a present but unparseable value raises. -/
def cfg_getint (sec : List (String × String)) (key : String)
    (fallback : Int) : Option Int :=
  match section_get sec key with
  | none => some fallback
  | some v => v.toInt?

/-- `parser.get(section, key, fallback="")`. -/
def cfg_get (sec : List (String × String)) (key : String)
    (fallback : String) : String :=
  (section_get sec key).getD fallback

/-- The per-section record built by `read_ini_parser`
(restore_window_position.py:119-130), field names as in the config dict. -/
structure SectionConfig where
  WindowTitle : String
  UseRegEx : Bool
  CaseSensitive : Bool
  ChildWindow : Bool
  OnTop : Bool
  PosX0 : Int
  PosY0 : Int
  PosY1 : Int
  PosX1 : Int
  WindowActive : Bool
  Minimized : Bool
deriving DecidableEq, Repr

/-- Embedding of the per-section body of `read_ini_parser`
(restore_window_position.py:119-130).  Note that the `OnTop` line of the
source reads the option `"CaseSensitive"` (with fallback `False`), not an
`OnTop`/`ontop` option. -/
def read_ini_section (sec : List (String × String)) : Option SectionConfig := do
  let title ← remove_quotes (cfg_get sec "WindowTitle" "")
  let useRegEx ← cfg_getboolean sec "UseRegEx" false
  let caseSensitive ← cfg_getboolean sec "CaseSensitive" true
  let childWindow ← cfg_getboolean sec "ChildWindow" false
  let onTop ← cfg_getboolean sec "CaseSensitive" false
  let posX0 ← cfg_getint sec "PosX0" (-1)
  let posY0 ← cfg_getint sec "PosY0" (-1)
  let posY1 ← cfg_getint sec "PosY1" (-1)
  let posX1 ← cfg_getint sec "PosX1" (-1)
  pure { WindowTitle := title, UseRegEx := useRegEx,
         CaseSensitive := caseSensitive, ChildWindow := childWindow,
         OnTop := onTop, PosX0 := posX0, PosY0 := posY0,
         PosY1 := posY1, PosX1 := posX1,
         WindowActive := false, Minimized := false }

/-- Per-tracked-window mutable state, as kept in the config dict by
`find_all_windows` / `update_positions`.  The `HWND` key is either missing
(before the first tick), `None`, or a live handle; a missing key only ever
feeds the comparison `win_hwnd != win_properties.get("HWND", -1)`, where
both missing (`-1`) and `None` compare unequal to every live (nonzero)
handle, so both are modelled as `none`.  The four position keys are grouped
into a `Rect`. -/
structure WinState where
  HWND : Option Nat
  RealWindowTitle : Option String
  WindowActive : Bool
  Minimized : Bool
  pos : Rect
deriving DecidableEq, Repr

/-- The OS-call results one tick of the loop would observe for one tracked
window: the handle `get_window_by_name` resolves (`0` = not found), the
`GetWindowText`, `IsWindowEnabled` and `IsIconic` results used by
`find_all_windows`, the `GetWindowRect` and `IsIconic` results used by
`update_positions`, and the virtual-screen metrics at each of the two
`is_position_valid` call sites (queried fresh on every call). -/
structure OsTick where
  hwnd : Nat
  realTitle : String
  enabled : Bool
  iconic : Bool
  rectQ : Except Unit Rect
  iconicAfter : Bool
  vsFind : VScreen
  vsUpd : VScreen

/-- Embedding of the per-window body of `find_all_windows`
(restore_window_position.py:165-192).  Returns the updated state and
whether `restore_window_position` was invoked on this tick (it is invoked
exactly when the window is fresh this episode, enabled, not iconic, and the
stored rectangle passes `is_position_valid`; exceptions it raises are
caught at the call site and do not change the state). -/
def find_step (os : OsTick) (w : WinState) : WinState × Bool :=
  if os.hwnd ≠ 0 then
    let active0 := if some os.hwnd ≠ w.HWND then false else w.WindowActive
    let w1 : WinState :=
      { w with HWND := some os.hwnd, RealWindowTitle := some os.realTitle,
               WindowActive := active0 }
    if !active0 && os.enabled && !os.iconic then
      let enforced := is_position_valid os.vsFind w.pos.x0 w.pos.y0 w.pos.x1 w.pos.y1
      ({ w1 with WindowActive := true }, enforced)
    else
      (w1, false)
  else
    ({ w with HWND := none, RealWindowTitle := none, WindowActive := false },
     false)

/-- Embedding of the per-window body of `update_positions`
(restore_window_position.py:195-216): skip when the handle is `None` or
the window is not active; a failed `GetWindowRect` leaves everything
unchanged; otherwise the `Minimized` flag is refreshed and the stored
rectangle is overwritten only when not minimized and the fresh reading is
valid. -/
def update_step (os : OsTick) (w : WinState) : WinState :=
  if w.HWND = none ∨ w.WindowActive = false then w
  else
    match os.rectQ with
    | .error _ => w
    | .ok r =>
      let w1 : WinState := { w with Minimized := os.iconicAfter }
      if !os.iconicAfter && is_position_valid os.vsUpd r.x0 r.y0 r.x1 r.y1 then
        { w1 with pos := r }
      else w1

/-- One tick of the worker loop for one tracked window:
`find_all_windows` then `update_positions`
(restore_window_position.py:295-296). -/
def tick (os : OsTick) (w : WinState) : WinState × Bool :=
  let fw := find_step os w
  (update_step os fw.1, fw.2)

/-- Runs a sequence of ticks from a state, returning the final state and
how many times `restore_window_position` was invoked. -/
def run (w : WinState) : List OsTick → WinState × Nat
  | [] => (w, 0)
  | os :: rest =>
    let t := tick os w
    let r := run t.1 rest
    (r.1, (if t.2 then 1 else 0) + r.2)

/-- One externally visible action of the retry loop of
`restore_window_position`: the `SetWindowPos` move/resize command (with the
width/height the source computes), the 50 ms sleep, or the re-read of the
window rectangle. -/
inductive OsEvent where
  | setPos (x y width height : Int)
  | sleepMs (ms : Nat)
  | readRect (r : Rect)
deriving DecidableEq, Repr

/-- The convergence measure of `restore_window_position`: the sum of the
absolute per-coordinate differences between an observed and the requested
rectangle (restore_window_position.py:271-273). -/
def rect_abs_diff (a b : Rect) : Int :=
  |a.x0 - b.x0| + |a.y0 - b.y0| + |a.x1 - b.x1| + |a.y1 - b.y1|

/-- The retry loop of `restore_window_position`
(restore_window_position.py:264-275), parametrised by the rectangle
`GetWindowRect` observes after each attempt (`obs i` is the reading after
attempt `i`).  Returns the emitted event trace and the number of attempts
performed.  `fuel` is the number of remaining iterations of
`for i in range(max_num_tries)`. -/
def restore_loop (target : Rect) (obs : Nat → Rect) :
    Nat → Nat → List OsEvent × Nat
  | _, 0 => ([], 0)
  | i, fuel + 1 =>
    let evs : List OsEvent :=
      [.setPos target.x0 target.y0 (target.x1 - target.x0) (target.y1 - target.y0),
       .sleepMs 50,
       .readRect (obs i)]
    if rect_abs_diff (obs i) target = 0 then (evs, 1)
    else
      let r := restore_loop target obs (i + 1) fuel
      (evs ++ r.1, r.2 + 1)

/-- Embedding of `restore_window_position(hwnd, x0, y0, x1, y1, on_top)`
(restore_window_position.py:252-275): the retry loop with
`max_num_tries = 10` starting at attempt `0`.  The `on_top` flag only
selects the z-order arguments of `SetWindowPos` and does not affect the
retry logic, so it is not modelled. -/
def restore_window_position (target : Rect) (obs : Nat → Rect) :
    List OsEvent × Nat :=
  restore_loop target obs 0 10

/-- Python 3's `round` to an integer: round half to even. -/
def python_round (q : ℚ) : ℤ :=
  if Int.fract q < 1 / 2 then ⌊q⌋
  else if 1 / 2 < Int.fract q then ⌊q⌋ + 1
  else if ⌊q⌋ % 2 = 0 then ⌊q⌋ else ⌊q⌋ + 1

/-- Embedding of `save_every = max(int(round((60 * save_rate) /
refresh_rate)), 1)` (restore_window_position.py:283; main.py:159 is the
same formula).  The float tunables are modelled as exact rationals. -/
def save_every (save_rate refresh_rate : ℚ) : ℤ :=
  max (python_round ((60 * save_rate) / refresh_rate)) 1

/-- The three events one iteration of the retry loop emits for attempt
`i`: the `SetWindowPos` command (origin plus derived width/height), the
50 ms sleep, and the rectangle re-read. -/
def attempt_events (target : Rect) (obs : Nat → Rect) (i : Nat) : List OsEvent :=
  [.setPos target.x0 target.y0 (target.x1 - target.x0) (target.y1 - target.y0),
   .sleepMs 50, .readRect (obs i)]

/-- The event trace of `n` consecutive attempts starting at attempt `i`:
the attempt block repeated once per attempt. -/
def trace_of (target : Rect) (obs : Nat → Rect) : Nat → Nat → List OsEvent
  | _, 0 => []
  | i, n + 1 => attempt_events target obs i ++ trace_of target obs (i + 1) n

/-- A 1920x1080 single-monitor virtual screen with origin at (0, 0). -/
def vsStd : VScreen := ⟨0, 0, 1920, 1080⟩

/-- A tick on which the alias resolves to handle `h`, the window is enabled,
not minimized, and `GetWindowRect` reads a valid on-screen rectangle. -/
def tickStd (h : Nat) : OsTick :=
  ⟨h, "My Editor", true, false, .ok ⟨50, 50, 500, 400⟩, false, vsStd, vsStd⟩

/-- A tick on which the alias resolves to handle `h` but the window is
minimized when `update_positions` reads it: `GetWindowRect` reports the
off-screen sentinel rectangle and `IsIconic` is true. -/
def tickMin (h : Nat) : OsTick :=
  ⟨h, "My Editor", true, false, .ok ⟨-32000, -32000, -31840, -31972⟩, true,
   vsStd, vsStd⟩

/-- A tick on which the alias resolves to handle `h` but the window is not
yet eligible for a restore: disabled and iconic at `find_all_windows`
time. -/
def tickIdle (h : Nat) : OsTick :=
  ⟨h, "My Editor", false, true, .ok ⟨50, 50, 500, 400⟩, true, vsStd, vsStd⟩

/-- Fresh tracked state whose stored rectangle is the never-observed
default `(-1, -1, -1, -1)`. -/
def wNeverObserved : WinState := ⟨none, none, false, false, ⟨-1, -1, -1, -1⟩⟩

/-- Fresh tracked state with a known-good stored rectangle. -/
def wStored : WinState := ⟨none, none, false, false, ⟨100, 100, 900, 700⟩⟩

/-- Tracked state mid-episode: handle 5 resolved, restore already applied. -/
def wTracked : WinState :=
  ⟨some 5, some "My Editor", true, false, ⟨100, 100, 900, 700⟩⟩

/-- A target rectangle for the position enforcer. -/
def rwpTarget : Rect := ⟨1, 2, 3, 4⟩

/-- An observation sequence that reports a wrong rectangle after the first
attempt and the requested one afterwards. -/
def rwpObs : Nat → Rect := fun i => if i = 0 then ⟨0, 0, 0, 0⟩ else ⟨1, 2, 3, 4⟩

lemma find_step_pos (os : OsTick) (w : WinState) :
    (find_step os w).1.pos = w.pos := by
  simp only [find_step]
  split_ifs <;> rfl

lemma find_step_hwnd_some (os : OsTick) (w : WinState) (h : os.hwnd ≠ 0) :
    (find_step os w).1.HWND = some os.hwnd := by
  simp only [find_step]
  rw [if_pos h]
  split_ifs <;> rfl

lemma find_step_not_found (os : OsTick) (w : WinState) (h : os.hwnd = 0) :
    (find_step os w).1.HWND = none ∧ (find_step os w).1.WindowActive = false ∧
      (find_step os w).2 = false := by
  unfold find_step
  rw [if_neg (by simp [h])]
  exact ⟨rfl, rfl, rfl⟩

lemma find_step_active_same (os : OsTick) (w : WinState) (h0 : os.hwnd ≠ 0)
    (hh : w.HWND = some os.hwnd) (ha : w.WindowActive = true) :
    (find_step os w).1.WindowActive = true ∧ (find_step os w).2 = false := by
  unfold find_step
  rw [if_pos h0]
  have hne : ¬ (some os.hwnd ≠ w.HWND) := by simp [hh]
  simp only [if_neg hne, ha]
  exact ⟨rfl, rfl⟩

lemma find_step_fresh (os : OsTick) (w : WinState) (h0 : os.hwnd ≠ 0)
    (hstart : w.WindowActive = false ∨ w.HWND ≠ some os.hwnd) :
    (find_step os w).1.WindowActive = (os.enabled && !os.iconic) ∧
      (find_step os w).2 =
        ((os.enabled && !os.iconic) &&
          is_position_valid os.vsFind w.pos.x0 w.pos.y0 w.pos.x1 w.pos.y1) := by
  unfold find_step
  rw [if_pos h0]
  have hact : (if some os.hwnd ≠ w.HWND then false else w.WindowActive) = false := by
    rcases hstart with ha | hne
    · split <;> simp [ha]
    · rw [if_pos (fun hsome => hne hsome.symm)]
  simp only [hact]
  cases he : os.enabled <;> cases hi : os.iconic <;> simp

lemma update_step_keeps (os : OsTick) (w : WinState) :
    (update_step os w).HWND = w.HWND ∧
      (update_step os w).WindowActive = w.WindowActive := by
  unfold update_step
  split
  · exact ⟨rfl, rfl⟩
  · split
    · exact ⟨rfl, rfl⟩
    · split
      · exact ⟨rfl, rfl⟩
      · exact ⟨rfl, rfl⟩

lemma update_step_pos_cases (os : OsTick) (w : WinState) :
    (update_step os w).pos = w.pos ∨
      ∃ r : Rect, os.rectQ = .ok r ∧ os.iconicAfter = false ∧
        is_position_valid os.vsUpd r.x0 r.y0 r.x1 r.y1 = true ∧
        (update_step os w).pos = r := by
  unfold update_step
  split
  · exact Or.inl rfl
  · split
    · exact Or.inl rfl
    · rename_i r heq
      split
      · rename_i hc
        simp only [Bool.and_eq_true, Bool.not_eq_true'] at hc
        exact Or.inr ⟨r, heq, hc.1, hc.2, rfl⟩
      · exact Or.inl rfl

lemma update_step_pos_iconic (os : OsTick) (w : WinState)
    (h : os.iconicAfter = true) : (update_step os w).pos = w.pos := by
  unfold update_step
  split
  · rfl
  · split
    · rfl
    · split
      · rename_i hc
        rw [h] at hc
        simp at hc
      · rfl

lemma update_step_pos_error (os : OsTick) (w : WinState)
    (h : os.rectQ = .error ()) : (update_step os w).pos = w.pos := by
  unfold update_step
  split
  · rfl
  · split
    · rfl
    · rename_i r heq
      rw [h] at heq
      exact absurd heq (by simp)

lemma update_step_minimized (os : OsTick) (w : WinState)
    (hH : w.HWND ≠ none) (hA : w.WindowActive = true)
    (r : Rect) (hr : os.rectQ = .ok r) :
    (update_step os w).Minimized = os.iconicAfter := by
  unfold update_step
  rw [if_neg (by simp [hH, hA])]
  split
  · rename_i e heq
    rw [hr] at heq
    exact absurd heq (by simp)
  · split <;> rfl

lemma run_cons (w : WinState) (os : OsTick) (rest : List OsTick) :
    run w (os :: rest) =
      ((run (tick os w).1 rest).1,
        (if (tick os w).2 then 1 else 0) + (run (tick os w).1 rest).2) := rfl

lemma tick_fst (os : OsTick) (w : WinState) :
    (tick os w).1 = update_step os (find_step os w).1 := rfl

lemma tick_snd (os : OsTick) (w : WinState) :
    (tick os w).2 = (find_step os w).2 := rfl

lemma run_active_zero (ticks : List OsTick) : ∀ (w : WinState) (h : Nat),
    h ≠ 0 → (∀ os ∈ ticks, os.hwnd = h) → w.HWND = some h →
    w.WindowActive = true →
    (run w ticks).2 = 0 ∧ (run w ticks).1.HWND = some h ∧
      (run w ticks).1.WindowActive = true := by
  induction ticks with
  | nil => intro w h _ _ hh ha; exact ⟨rfl, hh, ha⟩
  | cons os rest ih =>
    intro w h hne hres hh ha
    have hos : os.hwnd = h := hres os (by simp)
    have h0 : os.hwnd ≠ 0 := by rw [hos]; exact hne
    have hh' : w.HWND = some os.hwnd := by rw [hos]; exact hh
    have hfs := find_step_active_same os w h0 hh' ha
    have hfh := find_step_hwnd_some os w h0
    have hus := update_step_keeps os (find_step os w).1
    have hw2H : (tick os w).1.HWND = some h := by
      rw [tick_fst, hus.1, hfh, hos]
    have hw2A : (tick os w).1.WindowActive = true := by
      rw [tick_fst, hus.2, hfs.1]
    have hrest := ih (tick os w).1 h hne
      (fun o ho => hres o (by simp [ho])) hw2H hw2A
    have he : (tick os w).2 = false := by rw [tick_snd]; exact hfs.2
    rw [run_cons, he, hrest.1]
    exact ⟨rfl, hrest.2.1, hrest.2.2⟩

lemma run_fresh_le_one (ticks : List OsTick) : ∀ (w : WinState) (h : Nat),
    h ≠ 0 → (∀ os ∈ ticks, os.hwnd = h) →
    (w.WindowActive = false ∨ w.HWND ≠ some h) →
    (run w ticks).2 ≤ 1 := by
  induction ticks with
  | nil => intro w h _ _ _; exact Nat.zero_le 1
  | cons os rest ih =>
    intro w h hne hres hstart
    have hos : os.hwnd = h := hres os (by simp)
    have h0 : os.hwnd ≠ 0 := by rw [hos]; exact hne
    have hstart' : w.WindowActive = false ∨ w.HWND ≠ some os.hwnd := by
      rw [hos]; exact hstart
    have hfs := find_step_fresh os w h0 hstart'
    have hfh := find_step_hwnd_some os w h0
    have hus := update_step_keeps os (find_step os w).1
    rw [run_cons]
    by_cases hel : (os.enabled && !os.iconic) = true
    · have hw2A : (tick os w).1.WindowActive = true := by
        rw [tick_fst, hus.2, hfs.1, hel]
      have hw2H : (tick os w).1.HWND = some h := by
        rw [tick_fst, hus.1, hfh, hos]
      have hz := (run_active_zero rest (tick os w).1 h hne
        (fun o ho => hres o (by simp [ho])) hw2H hw2A).1
      rw [hz]
      split <;> omega
    · have hel' : (os.enabled && !os.iconic) = false := by
        revert hel; cases (os.enabled && !os.iconic) <;> simp
      have he : (tick os w).2 = false := by
        rw [tick_snd, hfs.2, hel']; rfl
      have hw2A : (tick os w).1.WindowActive = false := by
        rw [tick_fst, hus.2, hfs.1, hel']
      have hle := ih (tick os w).1 h hne
        (fun o ho => hres o (by simp [ho])) (Or.inl hw2A)
      rw [he]
      simpa using hle

/-- C3 (counterexample): the claim "exactly one PositionEnforcer invocation
occurs during that episode, ... on the first tick of the episode on which
the window is resolved" is false.  Concrete input: a freshly loaded tracked
window whose stored rectangle is the never-observed default
`(-1, -1, -1, -1)` and an episode of two ticks on which handle 5 stays
resolved, enabled and not minimized (virtual screen 1920x1080 at the
origin).  The stored rectangle fails `is_position_valid`, so
`find_all_windows` sets `WindowActive` without ever calling
`restore_window_position`: the episode contains zero enforcements, not
exactly one. -/
theorem run_episode_zero_enforcements_counterexample :
    (tickStd 5).hwnd = 5 ∧ (tickStd 5).enabled = true ∧
      (tickStd 5).iconic = false ∧
      (run wNeverObserved [tickStd 5, tickStd 5]).2 = 0 := by decide

/-- C4: on every tick the stored rectangle is overwritten only by a freshly
read rectangle that passed `is_position_valid` while the window was not
minimized; a minimized reading, a failed `GetWindowRect`, or an unresolved
window leaves the stored rectangle unchanged (and an invalid reading falls
under the first conjunct: any tick that changes the rectangle exhibits a
valid, non-minimized reading).  Additionally, for a resolved, active window
whose rectangle read succeeds, the `Minimized` flag is set to the fresh
`IsIconic` result (so a minimized reading flips the flag while the
rectangle stays). -/
theorem tick_pos_update (os : OsTick) (w : WinState) :
    ((tick os w).1.pos = w.pos ∨
      ∃ r : Rect, os.rectQ = .ok r ∧ os.iconicAfter = false ∧
        is_position_valid os.vsUpd r.x0 r.y0 r.x1 r.y1 = true ∧
        (tick os w).1.pos = r) ∧
    (os.iconicAfter = true → (tick os w).1.pos = w.pos) ∧
    (os.rectQ = .error () → (tick os w).1.pos = w.pos) ∧
    (os.hwnd = 0 → (tick os w).1.pos = w.pos) ∧
    (os.hwnd ≠ 0 → (find_step os w).1.WindowActive = true →
      ∀ r, os.rectQ = .ok r → (tick os w).1.Minimized = os.iconicAfter) := by
  refine ⟨?_, ?_, ?_, ?_, ?_⟩
  · rw [tick_fst]
    rcases update_step_pos_cases os (find_step os w).1 with h2 | ⟨r, hr, hic, hv, hp⟩
    · exact Or.inl (by rw [h2, find_step_pos])
    · exact Or.inr ⟨r, hr, hic, hv, hp⟩
  · intro hic
    rw [tick_fst, update_step_pos_iconic os _ hic, find_step_pos]
  · intro herr
    rw [tick_fst, update_step_pos_error os _ herr, find_step_pos]
  · intro h0
    have hf := find_step_not_found os w h0
    have hskip : update_step os (find_step os w).1 = (find_step os w).1 := by
      unfold update_step
      rw [if_pos (Or.inl hf.1)]
    rw [tick_fst, hskip, find_step_pos]
  · intro h0 hact r hr
    rw [tick_fst]
    exact update_step_minimized os _
      (by rw [find_step_hwnd_some os w h0]; simp) hact r hr

/-- Witness for `tick_pos_update`: a minimized reading (all-negative
sentinel rectangle, `IsIconic` true) on a tracked, active window leaves the
stored rectangle unchanged and sets the `Minimized` flag. -/
theorem tick_pos_update_witness :
    (tick (tickMin 5) wTracked).1.pos = wTracked.pos ∧
      (tick (tickMin 5) wTracked).1.Minimized = true :=
  ⟨(tick_pos_update (tickMin 5) wTracked).2.1 rfl,
   (tick_pos_update (tickMin 5) wTracked).2.2.2.2 (by decide) (by decide)
     ⟨-32000, -32000, -31840, -31972⟩ rfl⟩

/-- C5 (counterexample): the claim that the validity check "returns false
when all four coordinates are negative" and "false when any coordinate lies
outside the current virtual-display bounding box" is false at concrete
inputs.  First input: virtual screen `(0, 0, 1920, 1080)` and rectangle
`(5000, 0, 100, 100)` — the left coordinate 5000 lies outside the bounding
box, yet the check returns true because each coordinate is bounded on one
side only.  Second input: virtual screen `(-1920, -1080, 1920, 1080)` (a
monitor left of and above the primary) and the all-negative rectangle
`(-100, -100, -50, -50)`, which lies inside those bounds, so the check
returns true despite all four coordinates being negative. -/
theorem is_position_valid_claim_counterexample :
    is_position_valid ⟨0, 0, 1920, 1080⟩ 5000 0 100 100 = true ∧
    is_position_valid ⟨-1920, -1080, 1920, 1080⟩ (-100) (-100) (-50) (-50) = true := by
  decide

/-- C5 (amended): the check is exactly the four inclusive one-sided bounds
`left ≥ screen-left`, `top ≥ screen-top`, `right ≤ screen-right`,
`bottom ≤ screen-bottom`; rectangles on the boundary are valid.  There is
no separate all-negative-sentinel test: a rectangle with a negative
left coordinate is rejected only when the virtual screen's origin is
non-negative (second conjunct), which is how the minimized sentinel is
caught on standard configurations. -/
theorem is_position_valid_iff (vs : VScreen) (x0 y0 x1 y1 : Int) :
    (is_position_valid vs x0 y0 x1 y1 = true ↔
      (vs.left ≤ x0 ∧ vs.top ≤ y0 ∧ x1 ≤ vs.left + vs.width ∧
        y1 ≤ vs.top + vs.height)) ∧
    (0 ≤ vs.left → x0 < 0 → is_position_valid vs x0 y0 x1 y1 = false) := by
  constructor
  · simp [is_position_valid, and_assoc]
  · intro hl hx
    simp only [is_position_valid]
    have : ¬ (x0 ≥ vs.left) := by omega
    simp [this]

/-- Witness for `is_position_valid_iff`: a rectangle exactly on the
boundary of a 1920x1080 screen is valid, and the all-negative sentinel is
invalid there. -/
theorem is_position_valid_iff_witness :
    is_position_valid ⟨0, 0, 1920, 1080⟩ 0 0 1920 1080 = true ∧
      is_position_valid ⟨0, 0, 1920, 1080⟩ (-1) (-1) (-1) (-1) = false :=
  ⟨(is_position_valid_iff ⟨0, 0, 1920, 1080⟩ 0 0 1920 1080).1.mpr (by decide),
   (is_position_valid_iff ⟨0, 0, 1920, 1080⟩ (-1) (-1) (-1) (-1)).2
     (by decide) (by decide)⟩

/-- C6: with the literal (non-regex) pattern kind, `compare_window_title`
succeeds exactly on equality of the pattern and the title, lower-casing
both first when case sensitivity is off; substring containment is not
sufficient (second conjunct: the pattern `"Editor"` is contained in the
title `"My Editor"` but does not match, even with a regex tester that
always succeeds standing by). -/
theorem compare_window_title_literal_iff :
    (∀ (re_match : String → String → Bool) (lowercase_only : Bool)
       (target current : String),
      compare_window_title re_match false lowercase_only target current = true ↔
        (if lowercase_only then py_lower target else target) =
          (if lowercase_only then py_lower current else current)) ∧
    compare_window_title (fun _ _ => true) false false "Editor" "My Editor" = false := by
  constructor
  · intro re_match lowercase_only target current
    cases lowercase_only <;> simp [compare_window_title]
  · decide

/-- C7: the batch size is `max(round(60 * save_rate / refresh_rate), 1)`:
the rounding is to a nearest integer (first conjunct, distance at most
one half, with Python's half-to-even tie-breaking), the minimum is 1
(second conjunct), and a 1-minute save interval with a 10-second refresh
interval yields a batch of 6 ticks (third conjunct). -/
theorem save_every_spec :
    (∀ q : ℚ, |(python_round q : ℚ) - q| ≤ 1 / 2) ∧
    (∀ save_rate refresh_rate : ℚ, 1 ≤ save_every save_rate refresh_rate) ∧
    save_every 1 10 = 6 := by
  refine ⟨?_, ?_, ?_⟩
  · intro q
    have h0 : 0 ≤ Int.fract q := Int.fract_nonneg q
    have h1 : Int.fract q < 1 := Int.fract_lt_one q
    have hsf : q - Int.fract q = (⌊q⌋ : ℚ) := Int.self_sub_fract q
    unfold python_round
    split_ifs with ha hb hc <;>
      · rw [abs_le]
        push_cast
        constructor <;> linarith
  · intro save_rate refresh_rate
    exact le_max_right _ _
  · norm_num [save_every, python_round]

/-- C10: the quote-stripping helper is not total: on a string consisting of
a single quote character, `has_quotes` is true (the first and last
character are the same quote), the leading-quote strip empties the string,
and the trailing-quote test `string[-1]` then raises `IndexError`
(modelled as `none`).  On well-formed inputs it behaves as specified
(matching pair stripped, other strings unchanged). -/
theorem remove_quotes_single_quote_input :
    remove_quotes "\"" = none ∧ remove_quotes "'" = none ∧
      remove_quotes "\"abc\"" = some "abc" ∧ remove_quotes "abc" = some "abc" := by
  decide

/-- C1: on load, the always-on-top flag is read from the section's
case-sensitivity option, not from an `OnTop` option.  A section carrying
only `casesensitive = true` has no always-on-top field at all, yet loads
with `OnTop = true` (first two conjuncts); a section that explicitly sets
`ontop = true` but `casesensitive = false` loads with `OnTop = false`
(third conjunct).  Only for a section with neither option does the result
coincide with the specified default `false` (fourth conjunct). -/
theorem read_ini_section_onTop_from_caseSensitive :
    (read_ini_section [("casesensitive", "true")]).map SectionConfig.OnTop = some true ∧
    section_get [("casesensitive", "true")] "OnTop" = none ∧
    (read_ini_section [("casesensitive", "false"), ("ontop", "true")]).map
      SectionConfig.OnTop = some false ∧
    (read_ini_section []).map SectionConfig.OnTop = some false := by
  decide

/-- C2 (counterexample): with descendant search enabled, a top-level title
match does NOT recurse into that window's descendants.  Concrete input: one
top-level window (handle 1) titled `"My Editor"` with a descendant (handle
2) also titled `"My Editor"`, literal case-sensitive pattern
`"My Editor"`.  The descendant matches the same predicate (second
conjunct), but the locator returns the top-level handle 1, not the
descendant handle 2: the callback raises the stop exception on the
top-level match before `EnumChildWindows` is ever reached. -/
theorem get_window_by_name_prefers_toplevel_counterexample :
    get_window_by_name (fun _ _ => false) "My Editor" false false true
        [⟨1, .ok "My Editor", [⟨2, .ok "My Editor"⟩]⟩] = 1 ∧
      compare_window_title (fun _ _ => false) false false "My Editor" "My Editor" = true := by
  decide

/-- C2 (amended): with descendant search enabled, a top-level match stops
the search at once and is returned, regardless of the window's descendants
(first conjunct); descendants are searched, with the same predicate, only
for a top-level window whose own title does not match, and such a
descendant match is preferred over any later top-level window (second
conjunct: the result is the descendant search's match when there is one,
else the search of the remaining windows). -/
theorem get_window_by_name_toplevel_match_stops :
    (∀ (re_match : String → String → Bool) (target : String)
       (is_name_regex lowercase_only : Bool) (w : TopWin) (rest : List TopWin)
       (title : String),
      w.text = .ok title → title ≠ "" →
      compare_window_title re_match is_name_regex lowercase_only target title = true →
      get_window_by_name re_match target is_name_regex lowercase_only true
        (w :: rest) = w.hwnd) ∧
    (∀ (re_match : String → String → Bool) (target : String)
       (is_name_regex lowercase_only : Bool) (w : TopWin) (rest : List TopWin)
       (title : String),
      w.text = .ok title →
      compare_window_title re_match is_name_regex lowercase_only target title = false →
      get_window_by_name re_match target is_name_regex lowercase_only true
          (w :: rest) =
        (enum_child_windows
            (fun wname =>
              compare_window_title re_match is_name_regex lowercase_only
                target wname)
            w.children).getD
          (get_window_by_name re_match target is_name_regex lowercase_only true
            rest)) := by
  constructor
  · intro re_match target is_name_regex lowercase_only w rest title htext hne hcmp
    cases w with
    | mk hw tx ch =>
      cases htext
      simp [get_window_by_name, enum_windows, hcmp, hne]
  · intro re_match target is_name_regex lowercase_only w rest title htext hcmp
    cases w with
    | mk hw tx ch =>
      cases htext
      simp only [get_window_by_name, enum_windows, hcmp, Bool.and_false,
        Bool.false_eq_true, if_false, if_true]
      cases enum_child_windows
          (fun wname =>
            compare_window_title re_match is_name_regex lowercase_only
              target wname) ch <;> rfl

/-- Witness for `get_window_by_name_toplevel_match_stops`: handle 7 with a
matching title is returned even though its descendant 8 also matches; and
when 7's title does not match, the matching descendant 8 is returned in
preference to the later matching top-level window 9. -/
theorem get_window_by_name_toplevel_match_stops_witness :
    get_window_by_name (fun _ _ => false) "A" false false true
        [⟨7, .ok "A", [⟨8, .ok "A"⟩]⟩] = 7 ∧
      get_window_by_name (fun _ _ => false) "B" false false true
        [⟨7, .ok "A", [⟨8, .ok "B"⟩]⟩, ⟨9, .ok "B", []⟩] = 8 := by
  constructor
  · exact get_window_by_name_toplevel_match_stops.1 (fun _ _ => false) "A"
      false false ⟨7, .ok "A", [⟨8, .ok "A"⟩]⟩ [] "A" rfl (by decide) (by decide)
  · rw [get_window_by_name_toplevel_match_stops.2 (fun _ _ => false) "B"
      false false ⟨7, .ok "A", [⟨8, .ok "B"⟩]⟩ [⟨9, .ok "B", []⟩] "A" rfl
      (by decide)]
    decide

/-- C9 (counterexample): an error while inspecting one top-level window is
not "skipped without aborting the search of the remaining windows".
Concrete input: window 1's `GetWindowText` raises, window 2 is titled
`"Target"` and matches the literal pattern.  Searching window 2 alone
finds it (second conjunct), but with the erroring window 1 first the whole
enumeration halts and the absence marker 0 is returned (first conjunct) —
the remaining candidate was never inspected. -/
theorem get_window_by_name_error_abort_counterexample :
    get_window_by_name (fun _ _ => false) "Target" false false false
        [⟨1, .error (), []⟩, ⟨2, .ok "Target", []⟩] = 0 ∧
      get_window_by_name (fun _ _ => false) "Target" false false false
        [⟨2, .ok "Target", []⟩] = 2 := by
  decide

/-- C9 (amended): errors during enumeration are never propagated to the
caller (the embedded locator is total, returning a plain handle), but their
scope differs by level: an error inspecting a top-level window halts the
whole enumeration and the locator returns the absence marker 0 — nothing
found before it could have survived, since a match returns immediately
(first conjunct); an error inside a child-window enumeration only abandons
that window's descendant search (second conjunct), after which the search
continues with the remaining top-level windows (third conjunct). -/
theorem get_window_by_name_error_handling :
    (∀ (re_match : String → String → Bool) (target : String)
       (is_name_regex lowercase_only is_child_window : Bool)
       (w : TopWin) (rest : List TopWin),
      w.text = .error () →
      get_window_by_name re_match target is_name_regex lowercase_only
        is_child_window (w :: rest) = 0) ∧
    (∀ (cmp : String → Bool) (c : ChildWin) (cs : List ChildWin),
      c.text = .error () → enum_child_windows cmp (c :: cs) = none) ∧
    (∀ (cmp : String → Bool) (w : TopWin) (rest : List TopWin) (title : String),
      w.text = .ok title → (title != "" && cmp title) = false →
      enum_child_windows cmp w.children = none →
      enum_windows cmp true (w :: rest) = enum_windows cmp true rest) := by
  refine ⟨?_, ?_, ?_⟩
  · intro re_match target is_name_regex lowercase_only is_child_window w rest htext
    cases w with
    | mk hw tx ch =>
      cases htext
      simp [get_window_by_name, enum_windows]
  · intro cmp c cs htext
    cases c with
    | mk hc tx =>
      cases htext
      simp [enum_child_windows]
  · intro cmp w rest title htext hcond hch
    cases w with
    | mk hw tx ch =>
      cases htext
      simp [enum_windows, hcond, hch]

/-- Witness for `get_window_by_name_error_handling`: a top-level error
aborts with the absence marker; a child error yields no descendant match;
and the search then proceeds to the remaining top-level windows. -/
theorem get_window_by_name_error_handling_witness :
    get_window_by_name (fun _ _ => false) "T" false false false
        [⟨3, .error (), []⟩, ⟨4, .ok "T", []⟩] = 0 ∧
      enum_child_windows (fun _ => false) [⟨5, .error ()⟩, ⟨6, .ok "T"⟩] = none ∧
      enum_windows (fun t => t == "T") true
          [⟨3, .ok "A", [⟨5, .error ()⟩]⟩, ⟨4, .ok "T", []⟩] =
        enum_windows (fun t => t == "T") true [⟨4, .ok "T", []⟩] := by
  refine ⟨?_, ?_, ?_⟩
  · exact get_window_by_name_error_handling.1 (fun _ _ => false) "T"
      false false false ⟨3, .error (), []⟩ [⟨4, .ok "T", []⟩] rfl
  · exact get_window_by_name_error_handling.2.1 (fun _ => false)
      ⟨5, .error ()⟩ [⟨6, .ok "T"⟩] rfl
  · exact get_window_by_name_error_handling.2.2 (fun t => t == "T")
      ⟨3, .ok "A", [⟨5, .error ()⟩]⟩ [⟨4, .ok "T", []⟩] "A" rfl (by decide)
      (by decide)


lemma restore_loop_spec (target : Rect) (obs : Nat → Rect) :
    ∀ (fuel i : Nat), 1 ≤ fuel →
      1 ≤ (restore_loop target obs i fuel).2 ∧
      (restore_loop target obs i fuel).2 ≤ fuel ∧
      (restore_loop target obs i fuel).1 =
        trace_of target obs i (restore_loop target obs i fuel).2 ∧
      (∀ j, j + 1 < (restore_loop target obs i fuel).2 →
        rect_abs_diff (obs (i + j)) target ≠ 0) ∧
      (rect_abs_diff (obs (i + (restore_loop target obs i fuel).2 - 1)) target = 0 ∨
        (restore_loop target obs i fuel).2 = fuel) := by
  intro fuel
  induction fuel with
  | zero => intro i hf; omega
  | succ f ih =>
    intro i _
    by_cases h0 : rect_abs_diff (obs i) target = 0
    · have hl : restore_loop target obs i (f + 1) =
          ([.setPos target.x0 target.y0 (target.x1 - target.x0)
              (target.y1 - target.y0),
            .sleepMs 50, .readRect (obs i)], 1) := by
        simp only [restore_loop]
        rw [if_pos h0]
      rw [hl]
      refine ⟨le_refl 1, by omega, ?_, ?_, ?_⟩
      · rfl
      · intro j hj
        exact absurd hj (by omega)
      · left
        simpa using h0
    · have hl : restore_loop target obs i (f + 1) =
          ([.setPos target.x0 target.y0 (target.x1 - target.x0)
              (target.y1 - target.y0),
            .sleepMs 50, .readRect (obs i)] ++
              (restore_loop target obs (i + 1) f).1,
           (restore_loop target obs (i + 1) f).2 + 1) := by
        simp only [restore_loop]
        rw [if_neg h0]
      by_cases hf0 : f = 0
      · subst hf0
        have hz : restore_loop target obs (i + 1) 0 = ([], 0) := rfl
        rw [hl, hz]
        refine ⟨by omega, by omega, ?_, ?_, ?_⟩
        · rfl
        · intro j hj
          exact absurd hj (by omega)
        · right
          rfl
      · have hf1 : 1 ≤ f := Nat.one_le_iff_ne_zero.mpr hf0
        obtain ⟨ih1, ih2, ihtr, ihnz, ihlast⟩ := ih (i + 1) hf1
        rw [hl]
        refine ⟨by omega, by omega, ?_, ?_, ?_⟩
        · show _ ++ _ = trace_of target obs i ((restore_loop target obs (i + 1) f).2 + 1)
          rw [ihtr]
          rfl
        · intro j hj
          cases j with
          | zero => simpa using h0
          | succ k =>
            have hk : k + 1 < (restore_loop target obs (i + 1) f).2 := by omega
            have hnz := ihnz k hk
            have hidx : i + 1 + k = i + (k + 1) := by omega
            rwa [hidx] at hnz
        · rcases ihlast with hz | hfull
          · left
            have hidx : i + 1 + (restore_loop target obs (i + 1) f).2 - 1 =
                i + ((restore_loop target obs (i + 1) f).2 + 1) - 1 := by omega
            rwa [hidx] at hz
          · right
            omega

/-- C8: the enforcer issues the move/resize command at most 10 times; the
emitted event trace is exactly, per attempt, the `SetWindowPos` command
with the requested origin and the width/height derived from the requested
rectangle, then a 50 ms sleep, then the rectangle re-read (`trace_of`,
starting at attempt 0); no attempt before the last ends with a zero total
absolute coordinate delta (so it stops as soon as the delta is zero); and
the run ends either because the last observed delta is zero or because all
10 attempts are exhausted, in which case it returns normally (the embedded
function is total — nothing is raised). -/
theorem restore_window_position_spec (target : Rect) (obs : Nat → Rect) :
    1 ≤ (restore_window_position target obs).2 ∧
    (restore_window_position target obs).2 ≤ 10 ∧
    (restore_window_position target obs).1 =
      trace_of target obs 0 (restore_window_position target obs).2 ∧
    (∀ j, j + 1 < (restore_window_position target obs).2 →
      rect_abs_diff (obs j) target ≠ 0) ∧
    (rect_abs_diff (obs ((restore_window_position target obs).2 - 1)) target = 0 ∨
      (restore_window_position target obs).2 = 10) := by
  have h := restore_loop_spec target obs 10 0 (by omega)
  simp only [Nat.zero_add] at h
  unfold restore_window_position
  exact h

/-- Witness for `restore_window_position_spec`: with an observation
sequence that reports a wrong rectangle after the first attempt and the
requested one afterwards, the first attempt indeed ends with a nonzero
delta, and the enforcer performs exactly 2 attempts. -/
theorem restore_window_position_spec_witness :
    rect_abs_diff (rwpObs 0) rwpTarget ≠ 0 ∧
      (restore_window_position rwpTarget rwpObs).2 = 2 := by
  constructor
  · exact (restore_window_position_spec rwpTarget rwpObs).2.2.2.1 0 (by decide)
  · decide

lemma update_step_inactive (os : OsTick) (w : WinState)
    (h : w.WindowActive = false) : update_step os w = w := by
  unfold update_step
  rw [if_pos (Or.inr h)]

lemma run_append (l1 : List OsTick) : ∀ (l2 : List OsTick) (w : WinState),
    run w (l1 ++ l2) =
      ((run (run w l1).1 l2).1, (run w l1).2 + (run (run w l1).1 l2).2) := by
  induction l1 with
  | nil => intro l2 w; simp [run]
  | cons o l1 ih =>
    intro l2 w
    rw [List.cons_append, run_cons, ih l2 (tick o w).1, run_cons]
    simp [Nat.add_assoc]

lemma run_ineligible (pre : List OsTick) : ∀ (w : WinState) (h : Nat),
    h ≠ 0 → (∀ o ∈ pre, o.hwnd = h) →
    (∀ o ∈ pre, (o.enabled && !o.iconic) = false) →
    (w.WindowActive = false ∨ w.HWND ≠ some h) →
    (run w pre).2 = 0 ∧ (run w pre).1.pos = w.pos ∧
      ((run w pre).1.WindowActive = false ∨ (run w pre).1.HWND ≠ some h) := by
  induction pre with
  | nil => intro w h _ _ _ hstart; exact ⟨rfl, rfl, hstart⟩
  | cons o pre ih =>
    intro w h hne hres hinel hstart
    have hoh : o.hwnd = h := hres o (by simp)
    have h0 : o.hwnd ≠ 0 := by rw [hoh]; exact hne
    have hstart' : w.WindowActive = false ∨ w.HWND ≠ some o.hwnd := by
      rw [hoh]; exact hstart
    have hfs := find_step_fresh o w h0 hstart'
    have hel : (o.enabled && !o.iconic) = false := hinel o (by simp)
    have hA : (find_step o w).1.WindowActive = false := by rw [hfs.1, hel]
    have he : (tick o w).2 = false := by rw [tick_snd, hfs.2, hel]; rfl
    have hTick : (tick o w).1 = (find_step o w).1 := by
      rw [tick_fst, update_step_inactive o _ hA]
    have hTpos : (tick o w).1.pos = w.pos := by rw [hTick, find_step_pos]
    have hTA : (tick o w).1.WindowActive = false := by rw [hTick]; exact hA
    have IH := ih (tick o w).1 h hne (fun x hx => hres x (by simp [hx]))
      (fun x hx => hinel x (by simp [hx])) (Or.inl hTA)
    rw [run_cons, he]
    refine ⟨?_, ?_, IH.2.2⟩
    · show (if false = true then 1 else 0) + (run (tick o w).1 pre).2 = 0
      rw [IH.1]
      decide
    · show (run (tick o w).1 pre).1.pos = w.pos
      rw [IH.2.1, hTpos]

/-- C3 (amended): per appearance episode (a run of ticks on which the alias
resolves to the same nonzero handle, entered from a state that is inactive
or held a different handle), at most one `restore_window_position`
invocation occurs.  Ticks on which the window is disabled or minimized
perform no enforcement and leave the stored rectangle untouched; on the
first tick of the episode on which the window is enabled and not minimized,
the episode's full enforcement count is decided: it is 1 exactly when the
stored rectangle passes `is_position_valid` against that tick's metrics,
and 0 otherwise, and no enforcement happens after that tick.  An episode
with no such eligible tick has zero enforcements. -/
theorem run_episode_enforcement (w : WinState) (h : Nat) (ticks : List OsTick)
    (hne : h ≠ 0) (hres : ∀ os ∈ ticks, os.hwnd = h)
    (hstart : w.WindowActive = false ∨ w.HWND ≠ some h) :
    (run w ticks).2 ≤ 1 ∧
    (∀ pre os rest, ticks = pre ++ os :: rest →
      (∀ o ∈ pre, (o.enabled && !o.iconic) = false) →
      (os.enabled && !os.iconic) = true →
      (run w pre).2 = 0 ∧
      (run w ticks).2 =
        (if is_position_valid os.vsFind w.pos.x0 w.pos.y0 w.pos.x1 w.pos.y1
          then 1 else 0) ∧
      (run w (pre ++ [os])).2 = (run w ticks).2) ∧
    ((∀ o ∈ ticks, (o.enabled && !o.iconic) = false) → (run w ticks).2 = 0) := by
  refine ⟨run_fresh_le_one ticks w h hne hres hstart, ?_, ?_⟩
  · rintro pre os rest rfl hpre helig
    have hresPre : ∀ o ∈ pre, o.hwnd = h := fun o ho => hres o (by simp [ho])
    obtain ⟨hc0, hpos, hst⟩ := run_ineligible pre w h hne hresPre hpre hstart
    have hosh : os.hwnd = h := hres os (by simp)
    have h0 : os.hwnd ≠ 0 := by rw [hosh]; exact hne
    have hstart1 : (run w pre).1.WindowActive = false ∨
        (run w pre).1.HWND ≠ some os.hwnd := by
      rw [hosh]; exact hst
    have hfs := find_step_fresh os (run w pre).1 h0 hstart1
    have hus := update_step_keeps os (find_step os (run w pre).1).1
    have hw2A : (tick os (run w pre).1).1.WindowActive = true := by
      rw [tick_fst, hus.2, hfs.1, helig]
    have hw2H : (tick os (run w pre).1).1.HWND = some h := by
      rw [tick_fst, hus.1, find_step_hwnd_some os (run w pre).1 h0, hosh]
    have hresRest : ∀ o ∈ rest, o.hwnd = h := fun o ho => hres o (by simp [ho])
    have hz := (run_active_zero rest (tick os (run w pre).1).1 h hne hresRest
      hw2H hw2A).1
    have he : (tick os (run w pre).1).2 =
        is_position_valid os.vsFind w.pos.x0 w.pos.y0 w.pos.x1 w.pos.y1 := by
      rw [tick_snd, hfs.2, helig, hpos]
      exact Bool.true_and _
    have hwhole : (run w (pre ++ os :: rest)).2 =
        (if is_position_valid os.vsFind w.pos.x0 w.pos.y0 w.pos.x1 w.pos.y1
          then 1 else 0) := by
      rw [run_append pre (os :: rest) w]
      show (run w pre).2 + (run (run w pre).1 (os :: rest)).2 = _
      rw [hc0, run_cons]
      show 0 + ((if (tick os (run w pre).1).2 then 1 else 0) +
        (run (tick os (run w pre).1).1 rest).2) = _
      rw [hz, he]
      simp
    have hfirst : (run w (pre ++ [os])).2 =
        (if is_position_valid os.vsFind w.pos.x0 w.pos.y0 w.pos.x1 w.pos.y1
          then 1 else 0) := by
      rw [run_append pre [os] w]
      show (run w pre).2 + (run (run w pre).1 [os]).2 = _
      rw [hc0, run_cons]
      show 0 + ((if (tick os (run w pre).1).2 then 1 else 0) +
        (run (tick os (run w pre).1).1 []).2) = _
      rw [he]
      simp [run]
    exact ⟨hc0, hwhole, by rw [hfirst, hwhole]⟩
  · intro hall
    exact (run_ineligible ticks w h hne hres hall hstart).1

/-- Witness for `run_episode_enforcement`: an episode on handle 5 whose
first tick finds the window disabled and minimized performs no enforcement
during that prefix, and with a valid stored rectangle performs exactly one
enforcement, already complete as of the first eligible tick. -/
theorem run_episode_enforcement_witness :
    (run wStored [tickIdle 5]).2 = 0 ∧
      (run wStored [tickIdle 5, tickStd 5, tickStd 5]).2 = 1 ∧
      (run wStored [tickIdle 5, tickStd 5]).2 = 1 := by
  have H := (run_episode_enforcement wStored 5
      [tickIdle 5, tickStd 5, tickStd 5] (by decide) (by decide)
      (Or.inl rfl)).2.1
      [tickIdle 5] (tickStd 5) [tickStd 5] rfl (by decide) (by decide)
  refine ⟨H.1, ?_, ?_⟩
  · rw [H.2.1]
    decide
  · show (run wStored ([tickIdle 5] ++ [tickStd 5])).2 = 1
    rw [H.2.2, H.2.1]
    decide
